import Mathlib

/-!
Verification of the "Gemini Image Analyzer API" (src/ram_fastapi.py).

The service is a single linear pipeline: validate an uploaded image
(`encode_image_file`), base64-encode it, build a fixed two-message chat
payload, call an upstream completion API, parse the returned text as JSON
and map it to one of three response shapes (`analyze_image`), plus a static
`GET /` handler (`home`).

The shallow embedding below models:
  * bytes as `List Nat` with every element `< 256`;
  * JSON values as the inductive `Json` (numbers modelled as integers —
    no claim depends on non-integral numbers);
  * Python's `base64.b64encode` as `b64encode`, together with a strict
    standard base64 decoder `b64decodeBytes` used to state the round-trip
    property;
  * Python's `in` / subscript operators on a parsed JSON value (`pyIn`,
    `pySubscript`), including the `TypeError` cases (`none`);
  * the outcome of the upstream call as an explicit `Upstream` value whose
    `parsed` component records the outcome of `json.loads` on the raw text
    (the parser itself is Python stdlib, not repository code);
  * `HTTPException`s and `JSONResponse`s as an `HttpResponse` record
    (FastAPI renders a raised `HTTPException` as `{"detail": msg}` with the
    exception's status code).
-/

/-- JSON values, as produced by a strict JSON parse of the upstream text.
Numbers are modelled as integers; no claim inspects numeric values beyond
equality on small literals. -/
inductive Json where
  | null
  | bool (b : Bool)
  | num (n : Int)
  | str (s : String)
  | arr (elems : List Json)
  | obj (members : List (String × Json))

/-- An HTTP response: status code plus JSON body. A raised `HTTPException`
with detail `d` is rendered by FastAPI as status plus body `{"detail": d}`. -/
structure HttpResponse where
  status : Nat
  body : Json

/-- A raised `HTTPException`: status code and detail string. -/
structure HTTPError where
  status : Nat
  detail : String

/-! ### Base64 (Python `base64.b64encode`, standard alphabet, `=` padding,
no line wrapping) -/

/-- The standard base64 alphabet, in index order. -/
def b64Alphabet : List Char :=
  "ABCDEFGHIJKLMNOPQRSTUVWXYZabcdefghijklmnopqrstuvwxyz0123456789+/".data

/-- The base64 character for a 6-bit value. -/
def b64Char (n : Nat) : Char := b64Alphabet.getD n '?'

/-- Index of a character in the base64 alphabet; `none` for `=` and any
character outside the alphabet. -/
def b64CharVal (c : Char) : Option Nat :=
  let i := b64Alphabet.indexOf c
  if i < 64 then some i else none

/-- Python `base64.b64encode` on a byte sequence: 3 bytes become 4 alphabet
characters; a trailing 1- or 2-byte group is padded with `=`. -/
def b64encodeBytes : List Nat → List Char
  | [] => []
  | [a] => [b64Char (a / 4), b64Char (a % 4 * 16), '=', '=']
  | [a, b] => [b64Char (a / 4), b64Char (a % 4 * 16 + b / 16), b64Char (b % 16 * 4), '=']
  | a :: b :: c :: rest =>
      b64Char (a / 4) :: b64Char (a % 4 * 16 + b / 16) ::
        b64Char (b % 16 * 4 + c / 64) :: b64Char (c % 64) :: b64encodeBytes rest

/-- The base64 text produced for the data URI (`encoded_string` in the
source, after `.decode("utf-8")`). -/
def b64encode (bs : List Nat) : String := String.mk (b64encodeBytes bs)

/-- Decode a final base64 quadruple, honouring `=` padding. -/
def b64decodeBlock (c1 c2 c3 c4 : Char) : Option (List Nat) :=
  match b64CharVal c1, b64CharVal c2 with
  | some w, some x =>
    if c3 = '=' then
      if c4 = '=' then some [w * 4 + x / 16] else none
    else
      match b64CharVal c3 with
      | some y =>
        if c4 = '=' then some [w * 4 + x / 16, x % 16 * 16 + y / 4]
        else
          match b64CharVal c4 with
          | some z => some [w * 4 + x / 16, x % 16 * 16 + y / 4, y % 4 * 64 + z]
          | none => none
      | none => none
  | _, _ => none

/-- Strict standard base64 decoding: the inverse direction of
`b64encodeBytes`, used to state the round-trip property of the encoding. -/
def b64decodeBytes : List Char → Option (List Nat)
  | [] => some []
  | c1 :: c2 :: c3 :: c4 :: rest =>
    if rest.isEmpty then b64decodeBlock c1 c2 c3 c4
    else
      match b64CharVal c1, b64CharVal c2, b64CharVal c3, b64CharVal c4 with
      | some w, some x, some y, some z =>
        match b64decodeBytes rest with
        | some tail => some ((w * 4 + x / 16) :: (x % 16 * 16 + y / 4) :: (y % 4 * 64 + z) :: tail)
        | none => none
      | _, _, _, _ => none
  | _ => none

/-- Decode a base64 string (the payload portion of a data URI). -/
def b64decodeString (s : String) : Option (List Nat) := b64decodeBytes s.data

theorem b64CharVal_b64Char : ∀ n, n < 64 → b64CharVal (b64Char n) = some n := by
  decide

theorem b64Char_ne_eq : ∀ n, n < 64 → b64Char n ≠ '=' := by
  decide

theorem b64encodeBytes_ne_nil (bs : List Nat) (h : bs ≠ []) :
    b64encodeBytes bs ≠ [] := by
  rcases bs with _ | ⟨a, _ | ⟨b, _ | ⟨c, rest⟩⟩⟩
  · exact absurd rfl h
  all_goals simp [b64encodeBytes]

/-- Base64 round-trip: decoding the encoding of any byte sequence yields
the original bytes. -/
theorem b64_roundtrip (bs : List Nat) (h : ∀ b ∈ bs, b < 256) :
    b64decodeBytes (b64encodeBytes bs) = some bs := by
  induction bs using b64encodeBytes.induct with
  | case1 => simp [b64encodeBytes, b64decodeBytes]
  | case2 a =>
    have ha : a < 256 := h a (by simp)
    have h1 : a / 4 < 64 := by omega
    have h2 : a % 4 * 16 < 64 := by omega
    simp only [b64encodeBytes, b64decodeBytes, List.isEmpty_nil, if_true, b64decodeBlock,
      b64CharVal_b64Char _ h1, b64CharVal_b64Char _ h2, if_pos rfl,
      Option.some.injEq, List.cons.injEq, and_true]
    omega
  | case3 a b =>
    have ha : a < 256 := h a (by simp)
    have hb : b < 256 := h b (by simp)
    have h1 : a / 4 < 64 := by omega
    have h2 : a % 4 * 16 + b / 16 < 64 := by omega
    have h3 : b % 16 * 4 < 64 := by omega
    simp only [b64encodeBytes, b64decodeBytes, List.isEmpty_nil, if_true, b64decodeBlock,
      b64CharVal_b64Char _ h1, b64CharVal_b64Char _ h2, b64CharVal_b64Char _ h3,
      if_neg (b64Char_ne_eq _ h3), if_pos rfl,
      Option.some.injEq, List.cons.injEq, and_true]
    omega
  | case4 a b c rest ih =>
    have ha : a < 256 := h a (by simp)
    have hb : b < 256 := h b (by simp)
    have hc : c < 256 := h c (by simp)
    have hrest : ∀ x ∈ rest, x < 256 := by
      intro x hx
      exact h x (by simp [hx])
    have h1 : a / 4 < 64 := by omega
    have h2 : a % 4 * 16 + b / 16 < 64 := by omega
    have h3 : b % 16 * 4 + c / 64 < 64 := by omega
    have h4 : c % 64 < 64 := by omega
    by_cases hre : rest = []
    · subst hre
      simp only [b64encodeBytes, b64decodeBytes, List.isEmpty_nil, if_true, b64decodeBlock,
        b64CharVal_b64Char _ h1, b64CharVal_b64Char _ h2, b64CharVal_b64Char _ h3,
        b64CharVal_b64Char _ h4, if_neg (b64Char_ne_eq _ h3), if_neg (b64Char_ne_eq _ h4),
        Option.some.injEq, List.cons.injEq, and_true]
      omega
    · have hne : b64encodeBytes rest ≠ [] := b64encodeBytes_ne_nil rest hre
      simp only [b64encodeBytes, b64decodeBytes, List.isEmpty_eq_true, if_neg hne,
        b64CharVal_b64Char _ h1, b64CharVal_b64Char _ h2, b64CharVal_b64Char _ h3,
        b64CharVal_b64Char _ h4, ih hrest, Option.some.injEq, List.cons.injEq, and_true]
      omega

/-! ### JSON string escaping (Python `json.dumps` with default `ensure_ascii`) -/

/-- Lower-case hexadecimal digits. -/
def hexDigits : List Char := "0123456789abcdef".data

/-- Four-digit hexadecimal rendering of a code unit. -/
def hex4 (n : Nat) : String :=
  String.mk [hexDigits.getD (n / 4096 % 16) '0', hexDigits.getD (n / 256 % 16) '0',
    hexDigits.getD (n / 16 % 16) '0', hexDigits.getD (n % 16) '0']

/-- A `\uXXXX` escape. -/
def uEscape (n : Nat) : String := "\\u" ++ hex4 n

/-- Escaping of one character, as Python `json.dumps` does with its default
`ensure_ascii=True`: printable ASCII other than `"` and `\` stays literal,
everything else is escaped (named escapes for the common controls, `\uXXXX`
otherwise, surrogate pairs beyond the BMP). -/
def escapeJsonChar (c : Char) : String :=
  if c = '"' then "\\\""
  else if c = '\\' then "\\\\"
  else if c = '\n' then "\\n"
  else if c = '\r' then "\\r"
  else if c = '\t' then "\\t"
  else if c.toNat = 8 then "\\b"
  else if c.toNat = 12 then "\\f"
  else if c.toNat < 32 then uEscape c.toNat
  else if c.toNat < 127 then String.singleton c
  else if c.toNat < 65536 then uEscape c.toNat
  else uEscape (55296 + (c.toNat - 65536) / 1024) ++ uEscape (56320 + (c.toNat - 65536) % 1024)

/-- A JSON string literal for `s`. -/
def jsonQuote (s : String) : String :=
  "\"" ++ String.join (s.data.map escapeJsonChar) ++ "\""

/-- Python `json.dumps` on a two-entry dict of strings, with the default
separators `", "` and `": "` (the shape used for the user message content). -/
def jsonDumps2 (k1 v1 k2 v2 : String) : String :=
  "\x7b" ++ jsonQuote k1 ++ ": " ++ jsonQuote v1 ++ ", " ++
    jsonQuote k2 ++ ": " ++ jsonQuote v2 ++ "\x7d"

/-! ### The fixed prompt strings and the chat payload (lines 52-104) -/

/-- The module-level `system_prompt` triple-quoted string, verbatim. -/
def system_prompt : String :=
  "\nYou are a helpful AI Assistant specialized in analyzing images.\nThe user provides images of only two categories:\n1. Food\n2. Medical Prescription\n\nIf the image is of food:\n1. List names of food items.\n2. Provide calories for each item based on quantity.\n3. Calculate total calories.\n\nIf the image is of a medical prescription:\n1. List medicine names.\n2. Describe benefits.\n3. Provide dosage.\n4. Estimate medicine prices.\n5. Suggest verified, cheaper generic alternatives if available.\n\nRules:\n- Accuracy should be about 90%.\n- Suggest generics only if verified by a government source.\n- Keep dosage clear and language simple.\n\nReturn the result as JSON with a single key \x27Conclusion\x27 containing the full analysis.\n"

/-- The `user_text` instruction built inside `analyze_image`, verbatim. -/
def user_text : String :=
  "Analyze this image according to the system prompt\x27s instructions and provide the result as JSON with a top-level key \x27Conclusion\x27."

/-- One role-tagged chat message. -/
structure ChatMessage where
  role : String
  content : String

/-- The data URI built at line 101: `f"data:{mime_type};base64,{encoded_image}"`. -/
def dataURI (mime_type encoded_image : String) : String :=
  "data:" ++ mime_type ++ ";base64," ++ encoded_image

/-- The `messages` list built at lines 95-104: a system message carrying
`system_prompt`, then a user message whose content is the `json.dumps` of
`{"note": user_text, "image_data_uri": <data URI>}`. -/
def buildMessages (mime_type encoded_image : String) : List ChatMessage :=
  [⟨"system", system_prompt⟩,
   ⟨"user", jsonDumps2 "note" user_text "image_data_uri" (dataURI mime_type encoded_image)⟩]

/-! ### Input validation (`encode_image_file`, lines 28-44) -/

/-- Python `str.startswith`, on the characters of the two strings. -/
def startswith (pre s : String) : Bool := pre.data.isPrefixOf s.data

/-- The condition of line 35: `not mime_type or not mime_type.startswith("image/")`,
with `none` standing for a request that carries no declared content-type. -/
def badContentType : Option String → Bool
  | none => true
  | some m => m == "" || !(startswith "image/" m)

/-- `encode_image_file`: rejects a missing / non-`image/` content-type and an
empty body with a 400 `HTTPException`, otherwise returns the base64 encoding
of the bytes together with the declared mime type. -/
def encode_image_file (contentType : Option String) (fileBytes : List Nat) :
    Except HTTPError (String × String) :=
  if badContentType contentType then
    Except.error ⟨400, "Uploaded file is not an image."⟩
  else if fileBytes.isEmpty then
    Except.error ⟨400, "Uploaded file is empty."⟩
  else
    Except.ok (b64encode fileBytes, contentType.getD "")

/-! ### Python `in` and subscript on a parsed JSON value -/

/-- Python equality of a JSON value against a string, as used by `in` on a
list: only an equal string compares equal. -/
def jsonEqStr (key : String) : Json → Bool
  | .str s => s == key
  | _ => false

/-- Substring test at every suffix position. -/
def strContainsAux (key : List Char) : List Char → Bool
  | [] => key.isEmpty
  | c :: rest => key.isPrefixOf (c :: rest) || strContainsAux key rest

/-- Substring test, as Python's `key in s` on a string. -/
def pyStrContains (s key : String) : Bool := strContainsAux key.data s.data

/-- Python's `key in v` on a parsed JSON value: key membership on a dict,
element membership on a list, substring on a string; `none` models the
`TypeError` raised on `int`, `float`, `bool` and `NoneType`. -/
def pyIn (key : String) : Json → Option Bool
  | .obj kvs => some (kvs.any (fun kv => kv.1 == key))
  | .arr xs => some (xs.any (jsonEqStr key))
  | .str s => some (pyStrContains s key)
  | _ => none

/-- First-match association lookup (a dict produced by `json.loads` has no
duplicate keys). -/
def pyLookup (key : String) : List (String × Json) → Option Json
  | [] => none
  | kv :: rest => if kv.1 == key then some kv.2 else pyLookup key rest

/-- Python's `v[key]` on a parsed JSON value: dict lookup; `none` models the
`TypeError` raised when `v` is a list, string, number, boolean or `None`. -/
def pySubscript (key : String) : Json → Option Json
  | .obj kvs => pyLookup key kvs
  | _ => none

/-- Python type name of a parsed JSON value, used in `TypeError` text. -/
def pyTypeName : Json → String
  | .null => "NoneType"
  | .bool _ => "bool"
  | .num _ => "int"
  | .str _ => "str"
  | .arr _ => "list"
  | .obj _ => "dict"

/-- CPython's `TypeError` message for `key in v` on a non-container. The
exact text is CPython-version-dependent; no theorem depends on it. -/
def inTypeErrorMsg (v : Json) : String :=
  "argument of type \x27" ++ pyTypeName v ++ "\x27 is not iterable"

/-- CPython's `TypeError` message for `v[key]` on a non-dict. The exact
text is CPython-version-dependent; no theorem depends on it. -/
def subscriptTypeErrorMsg (v : Json) : String :=
  pyTypeName v ++ " indices must be integers"

/-! ### The `/analysis` handler (`analyze_image`, lines 78-146) -/

/-- Outcome of the upstream completion call inside `analyze_image`.
`callFailure msg` models the `client.chat.completions.create` call raising
an exception rendered as `msg`; `reply raw parsed` models a completed call
whose extracted text is `raw`, with `parsed` recording the outcome of the
Python-stdlib `json.loads raw` (`none` when that parse raises). -/
inductive Upstream where
  | callFailure (msg : String)
  | reply (raw : String) (parsed : Option Json)

/-- Body of a FastAPI-rendered `HTTPException`: `{"detail": d}`. -/
def detailBody (d : String) : Json := Json.obj [("detail", Json.str d)]

/-- The `JSONResponse` of lines 127-134, returned when `json.loads` fails. -/
def invalidJsonResponse (raw : String) : HttpResponse :=
  ⟨502, Json.obj [("status", Json.str "error"),
    ("detail", Json.str "AI response was not valid JSON."),
    ("ai_raw", Json.str raw)]⟩

/-- The `JSONResponse` of line 137 (default status 200). -/
def successResponse (conclusion : Json) : HttpResponse :=
  ⟨200, Json.obj [("status", Json.str "success"), ("data", conclusion)]⟩

/-- The `JSONResponse` of line 139 (default status 200), returned when the
parsed value has no top-level "Conclusion" key. -/
def missingKeyResponse (parsed_output : Json) : HttpResponse :=
  ⟨200, Json.obj [("status", Json.str "partial"), ("raw", parsed_output)]⟩

/-- The catch-all of lines 144-146: `HTTPException(500, f"Server error: {e}")`. -/
def serverErrorResponse (msg : String) : HttpResponse :=
  ⟨500, detailBody ("Server error: " ++ msg)⟩

/-- Lines 122-139: parse the upstream text and map it to a response; a
`TypeError` from `in` or from subscripting escapes to the outer handler of
lines 144-146. -/
def normalizeUpstream (raw : String) (parsed : Option Json) : HttpResponse :=
  match parsed with
  | none => invalidJsonResponse raw
  | some v =>
    match pyIn "Conclusion" v with
    | none => serverErrorResponse (inTypeErrorMsg v)
    | some true =>
      match pySubscript "Conclusion" v with
      | some conclusion => successResponse conclusion
      | none => serverErrorResponse (subscriptTypeErrorMsg v)
    | some false => missingKeyResponse v

/-- The `POST /analysis` handler `analyze_image`: validate and encode the
upload, then (on a completed upstream call) normalize the upstream text.
A raised `HTTPException` is rendered as status plus `{"detail": ...}`. -/
def analyze_image (contentType : Option String) (fileBytes : List Nat)
    (up : Upstream) : HttpResponse :=
  match encode_image_file contentType fileBytes with
  | .error e => ⟨e.status, detailBody e.detail⟩
  | .ok _ =>
    match up with
    | .callFailure msg => serverErrorResponse msg
    | .reply raw parsed => normalizeUpstream raw parsed

/-- The `GET /` handler `home` (lines 149-151): a constant JSON body,
rendered by FastAPI with status 200. It reads no request data and no
upstream or configuration state. -/
def home : HttpResponse :=
  ⟨200, Json.obj [("message",
    Json.str "Welcome to Gemini Image Analyzer API! Use POST /analysis to upload an image.")]⟩

/-! ### Helper lemmas -/

theorem pyLookup_some_any (key : String) (kvs : List (String × Json)) (v : Json)
    (h : pyLookup key kvs = some v) : kvs.any (fun kv => kv.1 == key) = true := by
  induction kvs with
  | nil => simp [pyLookup] at h
  | cons kv rest ih =>
    by_cases hk : kv.1 == key
    · simp [List.any_cons, hk]
    · simp only [pyLookup, hk, if_false] at h
      simp [List.any_cons, hk, ih h]

theorem pyLookup_none_any (key : String) (kvs : List (String × Json))
    (h : pyLookup key kvs = none) : kvs.any (fun kv => kv.1 == key) = false := by
  induction kvs with
  | nil => simp
  | cons kv rest ih =>
    by_cases hk : kv.1 == key
    · simp [pyLookup, hk] at h
    · simp only [pyLookup, hk, if_false] at h
      simp [List.any_cons, hk, ih h]

theorem encode_image_file_ok (ct : String) (bs : List Nat)
    (hct : badContentType (some ct) = false) (hbs : bs ≠ []) :
    encode_image_file (some ct) bs = Except.ok (b64encode bs, ct) := by
  simp [encode_image_file, hct, hbs]

theorem analyze_image_callFailure (ct : String) (bs : List Nat) (msg : String)
    (hct : badContentType (some ct) = false) (hbs : bs ≠ []) :
    analyze_image (some ct) bs (Upstream.callFailure msg) = serverErrorResponse msg := by
  simp [analyze_image, encode_image_file_ok ct bs hct hbs]

theorem analyze_image_reply (ct : String) (bs : List Nat) (raw : String)
    (parsed : Option Json)
    (hct : badContentType (some ct) = false) (hbs : bs ≠ []) :
    analyze_image (some ct) bs (Upstream.reply raw parsed) = normalizeUpstream raw parsed := by
  simp [analyze_image, encode_image_file_ok ct bs hct hbs]

/-! ### Claims -/

/-- C1: for every upstream reply parsing as a JSON object, `POST /analysis`
returns 200 with `{"status":"success","data": v}` where `v` is exactly the
value bound to the top-level "Conclusion" key when that key is present, and
200 with `{"status":"partial","raw": o}` wrapping the entire parsed object
when it is absent. -/
theorem conclusion_key_routing (ct : String) (bs : List Nat) (raw : String)
    (kvs : List (String × Json))
    (hct : badContentType (some ct) = false) (hbs : bs ≠ []) :
    (∀ v, pyLookup "Conclusion" kvs = some v →
      analyze_image (some ct) bs (Upstream.reply raw (some (Json.obj kvs))) =
        ⟨200, Json.obj [("status", Json.str "success"), ("data", v)]⟩) ∧
    (pyLookup "Conclusion" kvs = none →
      analyze_image (some ct) bs (Upstream.reply raw (some (Json.obj kvs))) =
        ⟨200, Json.obj [("status", Json.str "partial"), ("raw", Json.obj kvs)]⟩) := by
  rw [analyze_image_reply ct bs raw _ hct hbs]
  constructor
  · intro v hv
    simp [normalizeUpstream, pyIn, pyLookup_some_any _ _ _ hv, pySubscript, hv,
      successResponse]
  · intro hn
    simp [normalizeUpstream, pyIn, pyLookup_none_any _ _ hn, missingKeyResponse]

/-- C1 witness: a concrete object with a "Conclusion" key maps to the
success shape carrying exactly that key's value. -/
theorem conclusion_key_routing_witness :
    analyze_image (some "image/png") [104]
        (Upstream.reply "raw" (some (Json.obj [("Conclusion", Json.num 5)]))) =
      ⟨200, Json.obj [("status", Json.str "success"), ("data", Json.num 5)]⟩ :=
  (conclusion_key_routing "image/png" [104] "raw" [("Conclusion", Json.num 5)]
    (by decide) (by simp)).1 (Json.num 5) rfl

theorem normalizeUpstream_status (raw : String) (parsed : Option Json) :
    (normalizeUpstream raw parsed).status = 200 ∨
    (normalizeUpstream raw parsed).status = 500 ∨
    (normalizeUpstream raw parsed).status = 502 := by
  rcases parsed with _ | v
  · simp [normalizeUpstream, invalidJsonResponse]
  · rcases hin : pyIn "Conclusion" v with _ | b
    · simp [normalizeUpstream, hin, serverErrorResponse]
    · rcases b with _ | _
      · simp [normalizeUpstream, hin, missingKeyResponse]
      · rcases hsub : pySubscript "Conclusion" v with _ | c
        · simp [normalizeUpstream, hin, hsub, serverErrorResponse]
        · simp [normalizeUpstream, hin, hsub, successResponse]

/-- C2: `POST /analysis` fails with 400 exactly when the declared
content-type is missing / not `image/`-prefixed or the body is empty; in
that case the response does not depend on the upstream call at all. -/
theorem invalid_input_400 (ct : Option String) (bs : List Nat) (up : Upstream) :
    ((badContentType ct = true ∨ bs = []) →
      (analyze_image ct bs up).status = 400 ∧
        ∀ up2, analyze_image ct bs up2 = analyze_image ct bs up) ∧
    ((analyze_image ct bs up).status = 400 → (badContentType ct = true ∨ bs = [])) := by
  by_cases hct : badContentType ct = true
  · constructor
    · intro _
      constructor
      · simp [analyze_image, encode_image_file, hct, detailBody]
      · intro up2
        simp [analyze_image, encode_image_file, hct]
    · intro _
      exact Or.inl hct
  · by_cases hbs : bs = []
    · constructor
      · intro _
        constructor
        · simp [analyze_image, encode_image_file, hct, hbs, detailBody]
        · intro up2
          simp [analyze_image, encode_image_file, hct, hbs]
      · intro _
        exact Or.inr hbs
    · constructor
      · intro h
        rcases h with h | h
        · exact absurd h hct
        · exact absurd h hbs
      · intro h
        exfalso
        rcases ct with _ | m
        · exact hct rfl
        have hm : badContentType (some m) = false := by simpa using hct
        rcases up with msg | ⟨raw, parsed⟩
        · rw [analyze_image_callFailure m bs msg hm hbs] at h
          simp [serverErrorResponse] at h
        · rw [analyze_image_reply m bs raw parsed hm hbs] at h
          rcases normalizeUpstream_status raw parsed with hs | hs | hs <;> omega

/-- C2 witness: a text upload gets a 400 that is independent of the
upstream outcome. -/
theorem invalid_input_400_witness :
    (analyze_image (some "text/plain") [104] (Upstream.callFailure "boom")).status = 400 ∧
      ∀ up2, analyze_image (some "text/plain") [104] up2 =
        analyze_image (some "text/plain") [104] (Upstream.callFailure "boom") :=
  (invalid_input_400 (some "text/plain") [104] (Upstream.callFailure "boom")).1
    (Or.inl (by decide))

/-- C3: when the upstream text does not parse as JSON, `POST /analysis`
returns the caught-error response: an error status (502, hence in the
500/502 family), a `detail` field carrying the fixed message, and neither
the success nor the partial body; the parse failure is mapped to a response
rather than propagated. -/
theorem invalid_json_error (ct : String) (bs : List Nat) (raw : String)
    (hct : badContentType (some ct) = false) (hbs : bs ≠ []) :
    analyze_image (some ct) bs (Upstream.reply raw none) = invalidJsonResponse raw ∧
    (invalidJsonResponse raw).status = 502 ∧
    pySubscript "detail" (invalidJsonResponse raw).body =
      some (Json.str "AI response was not valid JSON.") ∧
    (∀ v, invalidJsonResponse raw ≠ successResponse v ∧
      invalidJsonResponse raw ≠ missingKeyResponse v) := by
  refine ⟨?_, rfl, rfl, ?_⟩
  · rw [analyze_image_reply ct bs raw none hct hbs]
    rfl
  intro v
  constructor
  · intro he
    have : (invalidJsonResponse raw).status = (successResponse v).status := by rw [he]
    simp [invalidJsonResponse, successResponse] at this
  · intro he
    have : (invalidJsonResponse raw).status = (missingKeyResponse v).status := by rw [he]
    simp [invalidJsonResponse, missingKeyResponse] at this

/-- C3 witness: a concrete non-JSON upstream text yields the 502 error
response. -/
theorem invalid_json_error_witness :
    analyze_image (some "image/png") [104] (Upstream.reply "not json" none) =
      invalidJsonResponse "not json" :=
  (invalid_json_error "image/png" [104] "not json" (by decide) (by simp)).1

/-- C10: the invalid-JSON error response has status 502 and a body holding
exactly the three keys `status` (value "error"), `detail` (the fixed
message) and `ai_raw` (the raw upstream text, included unconditionally). -/
theorem invalid_json_body_exact (ct : String) (bs : List Nat) (raw : String)
    (hct : badContentType (some ct) = false) (hbs : bs ≠ []) :
    analyze_image (some ct) bs (Upstream.reply raw none) =
      ⟨502, Json.obj [("status", Json.str "error"),
        ("detail", Json.str "AI response was not valid JSON."),
        ("ai_raw", Json.str raw)]⟩ := by
  rw [analyze_image_reply ct bs raw none hct hbs]
  rfl

/-- C10 witness: the exact 502 body at a concrete input, with the raw text
echoed in `ai_raw`. -/
theorem invalid_json_body_exact_witness :
    analyze_image (some "image/jpeg") [1, 2] (Upstream.reply "oops" none) =
      ⟨502, Json.obj [("status", Json.str "error"),
        ("detail", Json.str "AI response was not valid JSON."),
        ("ai_raw", Json.str "oops")]⟩ :=
  invalid_json_body_exact "image/jpeg" [1, 2] "oops" (by decide) (by simp)

/-- C4: for every non-empty byte sequence the validator accepts, the data
URI is the fixed header followed by the base64 payload, and decoding that
payload yields exactly the original bytes. -/
theorem data_uri_roundtrip (m : String) (bs : List Nat)
    (hct : badContentType (some m) = false) (hbs : bs ≠ [])
    (hb : ∀ b ∈ bs, b < 256) :
    encode_image_file (some m) bs = Except.ok (b64encode bs, m) ∧
    ∃ payload, dataURI m (b64encode bs) = "data:" ++ m ++ ";base64," ++ payload ∧
      b64decodeString payload = some bs :=
  ⟨encode_image_file_ok m bs hct hbs, b64encode bs, rfl, b64_roundtrip bs hb⟩

/-- C4 witness: the concrete bytes of "hi" round-trip through the data
URI's base64 payload. -/
theorem data_uri_roundtrip_witness :
    encode_image_file (some "image/png") [104, 105] =
      Except.ok (b64encode [104, 105], "image/png") ∧
    ∃ payload, dataURI "image/png" (b64encode [104, 105]) =
        "data:" ++ "image/png" ++ ";base64," ++ payload ∧
      b64decodeString payload = some [104, 105] :=
  data_uri_roundtrip "image/png" [104, 105] (by decide) (by simp) (by decide)

/-- C5: the payload builder yields an ordered two-entry message list: a
system message carrying the fixed instruction string, then a user message
whose content is the JSON dump binding the data URI
`data:<mime>;base64,<encoded>` alongside the fixed instruction text, which
mentions returning JSON with a top-level "Conclusion" key. -/
theorem payload_two_messages (mime enc : String) :
    ∃ msg1 msg2, buildMessages mime enc = [msg1, msg2] ∧
      msg1.role = "system" ∧ msg1.content = system_prompt ∧
      msg2.role = "user" ∧
      msg2.content = jsonDumps2 "note" user_text "image_data_uri"
        ("data:" ++ mime ++ ";base64," ++ enc) ∧
      pyStrContains user_text "JSON" = true ∧
      pyStrContains user_text "Conclusion" = true :=
  ⟨⟨"system", system_prompt⟩,
   ⟨"user", jsonDumps2 "note" user_text "image_data_uri" (dataURI mime enc)⟩,
   rfl, rfl, rfl, rfl, rfl, by decide, by decide⟩

/-- C6: `GET /` is the constant 200 response carrying the static welcome
message; the handler reads no request data and no upstream state. -/
theorem home_static :
    home.status = 200 ∧
    home.body = Json.obj [("message",
      Json.str "Welcome to Gemini Image Analyzer API! Use POST /analysis to upload an image.")] :=
  ⟨rfl, rfl⟩

/-- C7 counterexample: on a concrete valid upload ("image/png" with body
bytes `hi`), the first component of the pair `encode_image_file` yields is
the base64 text "aGk=", whose bytes are not the uploaded bytes — the
validator does not return the uploaded bytes themselves. -/
theorem validator_yields_encoding_not_bytes :
    encode_image_file (some "image/png") [104, 105] = Except.ok ("aGk=", "image/png") ∧
    "aGk=".data.map Char.toNat ≠ [104, 105] :=
  ⟨rfl, by decide⟩

/-- C7 (amended): on every accepted upload, `encode_image_file` yields the
base64 encoding of the uploaded bytes — from which the original bytes are
recoverable exactly — together with the declared content-type unchanged. -/
theorem validator_returns_encoded_pair (m : String) (bs : List Nat)
    (hct : badContentType (some m) = false) (hbs : bs ≠ [])
    (hb : ∀ b ∈ bs, b < 256) :
    encode_image_file (some m) bs = Except.ok (b64encode bs, m) ∧
    b64decodeString (b64encode bs) = some bs :=
  ⟨encode_image_file_ok m bs hct hbs, b64_roundtrip bs hb⟩

/-- C7 witness: the amended statement at the upload ("image/png", `hi`). -/
theorem validator_returns_encoded_pair_witness :
    encode_image_file (some "image/png") [104, 105] =
      Except.ok (b64encode [104, 105], "image/png") ∧
    b64decodeString (b64encode [104, 105]) = some [104, 105] :=
  validator_returns_encoded_pair "image/png" [104, 105] (by decide) (by simp) (by decide)

/-- C8: the payload builder is deterministic — equal validated bytes and
mime types yield an identical base64 string and an identical two-message
payload (and both are total functions of those inputs). -/
theorem builder_deterministic (bs1 bs2 : List Nat) (m1 m2 : String)
    (hb : bs1 = bs2) (hm : m1 = m2) :
    b64encode bs1 = b64encode bs2 ∧
    buildMessages m1 (b64encode bs1) = buildMessages m2 (b64encode bs2) := by
  subst hb
  subst hm
  exact ⟨rfl, rfl⟩

/-- C8 witness: two runs on the same concrete upload agree. -/
theorem builder_deterministic_witness :
    b64encode [104, 105] = b64encode [104, 105] ∧
    buildMessages "image/png" (b64encode [104, 105]) =
      buildMessages "image/png" (b64encode [104, 105]) :=
  builder_deterministic [104, 105] [104, 105] "image/png" "image/png" rfl rfl

/-- C9: when the parsed upstream value is a number, boolean or null, the
key-membership test raises and the outer handler answers with the generic
500 server error; the partial shape is produced only for values on which
Python's `in` does not raise. -/
theorem non_container_500 (ct : String) (bs : List Nat) (raw : String) (v : Json)
    (hct : badContentType (some ct) = false) (hbs : bs ≠ []) :
    ((v = Json.null ∨ (∃ b, v = Json.bool b) ∨ (∃ n, v = Json.num n)) →
      (analyze_image (some ct) bs (Upstream.reply raw (some v))).status = 500 ∧
      (analyze_image (some ct) bs (Upstream.reply raw (some v))).body =
        detailBody ("Server error: " ++ inTypeErrorMsg v)) ∧
    (∀ w, (∃ j, (analyze_image (some ct) bs (Upstream.reply raw (some w))).body =
        (missingKeyResponse j).body) → pyIn "Conclusion" w ≠ none) := by
  constructor
  · intro hv
    rw [analyze_image_reply ct bs raw (some v) hct hbs]
    rcases hv with hv | ⟨b, hv⟩ | ⟨n, hv⟩ <;>
      subst hv <;>
      exact ⟨rfl, rfl⟩
  · intro w hj hnone
    rcases hj with ⟨j, hj⟩
    rw [analyze_image_reply ct bs raw (some w) hct hbs] at hj
    simp only [normalizeUpstream, hnone, serverErrorResponse, detailBody,
      missingKeyResponse] at hj
    simp at hj

/-- C9 witness: the concrete upstream value `1` yields the generic 500
server error (and, being a number, supports no key membership). -/
theorem non_container_500_witness :
    (analyze_image (some "image/png") [104] (Upstream.reply "1" (some (Json.num 1)))).status = 500 ∧
    (analyze_image (some "image/png") [104] (Upstream.reply "1" (some (Json.num 1)))).body =
      detailBody ("Server error: " ++ inTypeErrorMsg (Json.num 1)) :=
  (non_container_500 "image/png" [104] "1" (Json.num 1) (by decide) (by simp)).1
    (Or.inr (Or.inr ⟨1, rfl⟩))
